import Mathlib

/-!
# Verification of the tamper/steganography heuristic analyzer

Shallow embedding of `steganography.py` (the tamper/steganography checker of
the `malicious-apk-suite` repository) and proofs about its claims.

Modelling conventions:
* A file's bytes are a `List Nat` (each element a byte value).
* Python floats are modelled by `ℝ` for the Shannon entropy and by `ℚ` for
  the bytes-per-pixel ratio; entropy-valued definitions are therefore
  `noncomputable`, everything else is executable.
* The path argument is used by the code only through `os.path.splitext`
  (the lowercased extension) and the OS calls `os.path.exists` /
  `os.path.getsize` / `open`; we model a file as a `FileInput` record
  carrying exactly that information.  `PIL` (an external library) is
  modelled by the `dims` field: the dimensions it would report, or `none`
  when it fails or is absent (`try_image_dimensions` swallows every error).
* An `IOError` raised by an unguarded `open`/`read` is modelled by
  `Except.error`; reads of a `readable` file never fail.
* The human-readable reason strings are modelled losslessly by the
  inductive type `Reason`: each f-string template of the source is one
  constructor carrying the interpolated values.
-/

namespace Steg

/-! ## Constants (steganography.py lines 19-24) -/

def BPP_THRESHOLD : ℚ := 5
noncomputable def ENTROPY_SUSPICIOUS : ℝ := 7.5
noncomputable def ENTROPY_UNMISTAKABLE : ℝ := 7.9
def HEADER_READ : Nat := 4096
def TAIL_SCAN : Nat := 1024 * 1024
def SAMPLE_CHUNK : Nat := 131072

/-! ## Magic signature table (lines 27-36) -/

def MAGICS : List (List Nat × String) :=
  [([0x89, 0x50, 0x4E, 0x47, 0x0D, 0x0A, 0x1A, 0x0A], "PNG"),
   ([0xFF, 0xD8, 0xFF], "JPEG"),
   ([0x47, 0x49, 0x46, 0x38], "GIF"),
   ([0x52, 0x49, 0x46, 0x46], "RIFF/WEBP"),
   ([0x50, 0x4B, 0x03, 0x04], "ZIP/APK/JAR"),
   ([0x64, 0x65, 0x78, 0x0A, 0x30, 0x33, 0x35], "DEX"),
   ([0x7F, 0x45, 0x4C, 0x46], "ELF"),
   ([0x4D, 0x5A], "PE/MZ")]

/-- `detect_magic` (lines 68-73): first signature of `MAGICS` that is a
byte-prefix of the header wins; no match gives `none` (Python `None`). -/
def detect_magic (header : List Nat) : Option String :=
  MAGICS.findSome? (fun p => if p.1.isPrefixOf header then some p.2 else none)

/-- Python `bytes.find`: index of the first occurrence of `needle` in
`hay`, `none` when absent (Python returns `-1`). -/
def findSub (hay needle : List Nat) : Option Nat :=
  if needle.isPrefixOf hay then some 0
  else
    match hay with
    | [] => none
    | _ :: t => (findSub t needle).map (· + 1)

/-- `shannon_entropy_bytes` (lines 38-51): `-Σ p·log2 p` over the byte-value
frequencies; `0.0` for empty input.  The 256 float accumulations of the
source are modelled as one sum over `Finset.range 256`. -/
noncomputable def shannon_entropy_bytes (data : List Nat) : ℝ :=
  if data.length = 0 then 0
  else
    -(∑ b ∈ Finset.range 256,
      (if 0 < data.count b then
        ((data.count b : ℝ) / data.length) * Real.logb 2 ((data.count b : ℝ) / data.length)
      else 0))

/-- `bytes_per_pixel` (lines 89-94).  Python truthiness: `not w` is true for
both `None` and `0`, so the function returns `None` unless both dimensions
are present and nonzero. -/
def bytes_per_pixel (filesize : Nat) (w h : Option Nat) : Option ℚ :=
  match w, h with
  | some w', some h' =>
      if w' = 0 ∨ h' = 0 then none
      else some ((filesize : ℚ) / ((w' : ℚ) * (h' : ℚ)))
  | _, _ => none

/-! ## A file, as the analyzer observes it -/

/-- The information the analyzer extracts from the file system for one
file: `present` is `os.path.exists`, `readable` is whether `open`+`read`
succeeds, `content` the byte content, `ext` the lowercased extension from
`os.path.splitext`, and `dims` the `(width, height)` that
`try_image_dimensions` reports (lines 75-87; `none` on any failure). -/
structure FileInput where
  present : Bool
  readable : Bool
  content : List Nat
  ext : String
  dims : Option (Nat × Nat)

/-- `os.path.getsize(path) if os.path.exists(path) else 0` (line 133). -/
def fileSize (f : FileInput) : Nat := if f.present then f.content.length else 0

/-! ## Embedded-signature scan (`scan_for_embedded`, lines 96-127) -/

/-- One iteration of the head-scan loop (lines 105-114), with the nested
conditionals of the source kept as written: the outer test is
`head.startswith(sig) and len(sig) > 2`, then
`not (name == primary_magic and f.tell() == len(sig))` (where `f.tell()`
is `min(size, HEADER_READ)` after the head read), then twice
`name != primary_magic` (lines 111 and 112). -/
def headStep (head : List Nat) (size : Nat) (primaryMagic : String)
    (acc : List (String × Nat)) (p : List Nat × String) : List (String × Nat) :=
  if p.1.isPrefixOf head ∧ 2 < p.1.length then
    if ¬(p.2 = primaryMagic ∧ min size HEADER_READ = p.1.length) then
      if p.2 ≠ primaryMagic then
        if p.2 ≠ primaryMagic then acc ++ [(p.2, 0)] else acc
      else acc
    else acc
  else acc

/-- The head-scan part of `scan_for_embedded` (lines 103-114). -/
def head_findings (content : List Nat) (primaryMagic : String) : List (String × Nat) :=
  MAGICS.foldl (headStep (content.take HEADER_READ) content.length primaryMagic) []

/-- The bytes read by `f.seek(max(0, size - TAIL_SCAN)); f.read()`
(lines 117-118); `Nat` subtraction gives the `max(0, ·)` for free. -/
def tailBuffer (content : List Nat) : List Nat :=
  content.drop (content.length - TAIL_SCAN)

/-- One iteration of the tail-scan loop (lines 119-126): `tail.find(sig)`,
translation to an absolute offset `size - len(tail) + pos`, and the
`offset != 0` filter. -/
def tailStep (tail : List Nat) (size : Nat)
    (acc : List (String × Nat)) (p : List Nat × String) : List (String × Nat) :=
  match findSub tail p.1 with
  | some pos =>
      if size - tail.length + pos ≠ 0 then acc ++ [(p.2, size - tail.length + pos)]
      else acc
  | none => acc

/-- The tail-scan part of `scan_for_embedded` (lines 116-126). -/
def tail_findings (content : List Nat) : List (String × Nat) :=
  MAGICS.foldl (tailStep (tailBuffer content) content.length) []

/-- `scan_for_embedded` (lines 96-127): empty list for an empty file, the
head scan always, the tail scan only when `size > HEADER_READ`. -/
def scan_for_embedded (content : List Nat) (primaryMagic : String) : List (String × Nat) :=
  if content.length = 0 then []
  else
    head_findings content primaryMagic ++
      (if HEADER_READ < content.length then tail_findings content else [])

/-! ## The extension/magic map (lines 199-213) -/

/-- The `ext_map` dict (lines 199-213).  The keys `.xml`, `.arsc`, `.txt`,
`.ttf`, `.otf`, `.wav`, `.mp3` are mapped to Python `None`, which is
observably identical to being absent (`ext_map.get` gives `None` either
way and `if expected and ...` treats `None` as false), so both collapse to
`none` here. -/
def ext_map (e : String) : Option String :=
  if e = ".png" then some ("PNG")
  else if e = ".jpg" then some ("JPEG")
  else if e = ".jpeg" then some ("JPEG")
  else if e = ".gif" then some ("GIF")
  else if e = ".webp" then some ("RIFF/WEBP")
  else if e = ".so" then some ("ELF")
  else none

/-! ## Findings -/

/-- The reason strings appended by `analyze_file`, one constructor per
f-string template, carrying the interpolated values:
`"empty file"` (line 146), `"high entropy ..."` (line 169),
`"elevated entropy ..."` (line 172), `"entropy: error computing"`
(line 175, unreachable in this model since reads of a readable file do
not fail), `"bytes_per_pixel ..."` (line 184), `"found ... at offset ..."`
(line 192), and `"magic ... does not match extension ..."` (line 216). -/
inductive Reason where
  | emptyFile : Reason
  | highEntropy (ent : ℝ) : Reason
  | elevatedEntropy (ent : ℝ) : Reason
  | entropyError : Reason
  | highBpp (bpp : ℚ) : Reason
  | embedded (name : String) (offset : Nat) : Reason
  | mismatch (magic : String) (ext : String) : Reason

/-- The `entry` dict built by `analyze_file` (lines 131-143). -/
structure Entry where
  filesize : Nat
  magic : Option String
  extension : String
  entropy : Option ℝ
  w : Option Nat
  h : Option Nat
  bpp : Option ℚ
  embedded : List (String × Nat)
  reasons : List Reason
  score : Nat

/-! ## The stages of `analyze_file` (lines 129-219) -/

/-- `detect_magic(header) or "UNKNOWN"` (line 150), with
`header = read_initial(path)` the first `HEADER_READ` bytes. -/
def magicOf (f : FileInput) : String :=
  (detect_magic (f.content.take HEADER_READ)).getD ("UNKNOWN")

/-- The data the entropy is computed over (lines 155-166): the whole
content when `size <= 5 * 1024 * 1024`, otherwise the concatenation of a
`SAMPLE_CHUNK`-sized read from the start, from `size // 2` and from
`max(0, size - SAMPLE_CHUNK)`. -/
def sampled_data (c : List Nat) : List Nat :=
  if c.length ≤ 5 * 1024 * 1024 then c
  else
    c.take SAMPLE_CHUNK ++ (c.drop (c.length / 2)).take SAMPLE_CHUNK ++
      (c.drop (c.length - SAMPLE_CHUNK)).take SAMPLE_CHUNK

/-- The entropy value `ent` stored in `entry["entropy"]` (line 167). -/
noncomputable def entropyValue (c : List Nat) : ℝ :=
  shannon_entropy_bytes (sampled_data c)

/-- The reasons appended by the entropy stage (lines 168-173). -/
noncomputable def entropy_reasons (c : List Nat) : List Reason :=
  if ENTROPY_UNMISTAKABLE ≤ entropyValue c then [Reason.highEntropy (entropyValue c)]
  else if ENTROPY_SUSPICIOUS ≤ entropyValue c then [Reason.elevatedEntropy (entropyValue c)]
  else []

/-- The score added by the entropy stage (lines 170, 173). -/
noncomputable def entropy_score (c : List Nat) : Nat :=
  if ENTROPY_UNMISTAKABLE ≤ entropyValue c then 3
  else if ENTROPY_SUSPICIOUS ≤ entropyValue c then 1
  else 0

/-- Python truthiness of an optional integer (`if w and h:` line 180). -/
def truthyNat : Option Nat → Bool
  | some n => n ≠ 0
  | none => false

def imgW (f : FileInput) : Option Nat := f.dims.map Prod.fst
def imgH (f : FileInput) : Option Nat := f.dims.map Prod.snd

/-- `entry["bpp"]` (lines 180-182): set only inside `if w and h:`. -/
def bppValue (f : FileInput) : Option ℚ :=
  if truthyNat (imgW f) && truthyNat (imgH f) then
    bytes_per_pixel f.content.length (imgW f) (imgH f)
  else none

/-- Python truthiness of the optional float `bpp`
(`if bpp and bpp > BPP_THRESHOLD:` line 183). -/
def truthyRat : Option ℚ → Bool
  | some q => q ≠ 0
  | none => false

/-- The reasons appended by the image-density stage (line 184). -/
def bpp_reasons (f : FileInput) : List Reason :=
  match bppValue f with
  | some q => if q ≠ 0 ∧ BPP_THRESHOLD < q then [Reason.highBpp q] else []
  | none => []

/-- The score added by the image-density stage (line 185). -/
def bpp_score (f : FileInput) : Nat :=
  match bppValue f with
  | some q => if q ≠ 0 ∧ BPP_THRESHOLD < q then 2 else 0
  | none => 0

/-- `entry["embedded"]` (lines 188-189). -/
def embedded_findings (f : FileInput) : List (String × Nat) :=
  scan_for_embedded f.content (magicOf f)

/-- The reasons appended by the embedded-signature stage (lines 190-192),
one per finding, in list order. -/
def embedded_reasons (f : FileInput) : List Reason :=
  (embedded_findings f).map (fun p => Reason.embedded p.1 p.2)

/-- The score added by the embedded-signature stage (lines 193-196):
5 per DEX/ELF/PE finding, 3 per other finding. -/
def embedded_score (f : FileInput) : Nat :=
  ((embedded_findings f).map
    (fun p => if p.1 = ("DEX") ∨ p.1 = ("ELF") ∨ p.1 = ("PE/MZ") then 5 else 3)).sum

/-- The reasons appended by the extension/magic stage (lines 214-216):
`expected = ext_map.get(extension)`, finding iff `expected` is truthy and
differs from the detected magic. -/
def mismatch_reasons (f : FileInput) : List Reason :=
  match ext_map f.ext with
  | some expected =>
      if magicOf f ≠ expected then [Reason.mismatch (magicOf f) f.ext] else []
  | none => []

/-- The score added by the extension/magic stage (line 217). -/
def mismatch_score (f : FileInput) : Nat :=
  match ext_map f.ext with
  | some expected => if magicOf f ≠ expected then 2 else 0
  | none => 0

/-- The entry returned by `analyze_file` for a non-empty readable file
(lines 149-219).  The sequential `reasons.append` / `score +=` of the
source accumulate in stage order (entropy, image density, embedded
signatures, extension mismatch), rendered here as list concatenation and
a sum in that order. -/
noncomputable def analyze_body (f : FileInput) : Entry :=
  { filesize := f.content.length
    magic := some (magicOf f)
    extension := f.ext
    entropy := some (entropyValue f.content)
    w := imgW f
    h := imgH f
    bpp := bppValue f
    embedded := embedded_findings f
    reasons := entropy_reasons f.content ++ bpp_reasons f ++
      embedded_reasons f ++ mismatch_reasons f
    score := entropy_score f.content + bpp_score f +
      embedded_score f + mismatch_score f }

/-- The entry returned for an empty (or vanished) file (lines 131-147):
all probe fields still at their initial values, the single reason
`"empty file"`, score 0. -/
def emptyEntry (f : FileInput) : Entry :=
  { filesize := 0
    magic := none
    extension := f.ext
    entropy := none
    w := none
    h := none
    bpp := none
    embedded := []
    reasons := [Reason.emptyFile]
    score := 0 }

/-- `analyze_file` (lines 129-219).  The empty-file short-circuit comes
first (lines 145-147); the first unguarded read (`read_initial`, line 149)
raises for an unreadable file and nothing catches it, modelled as
`Except.error`. -/
noncomputable def analyze_file (f : FileInput) : Except String Entry :=
  if fileSize f = 0 then Except.ok (emptyEntry f)
  else if f.readable then Except.ok (analyze_body f)
  else Except.error ("unreadable")

/-! ## The driver (`main`, lines 240-279) -/

/-- The per-file loop of `main` (lines 262-266): `analyze_file` on each
file that passed the `should_scan_file` filter, in walk order, with no
`try`/`except` — the first raised exception aborts the whole loop.
The input list stands for the files that passed the filter. -/
noncomputable def mainLoop (files : List FileInput) : Except String (List Entry) :=
  files.mapM analyze_file

/-- The reporting predicate of `main` (line 271): a result is printed
(and counted among the "suspicious files found", line 279) iff
`score > 0 or len(reasons) > 0`. -/
def reportedSuspicious (e : Entry) : Bool :=
  decide (0 < e.score) || !e.reasons.isEmpty

/-- The only classification the program attaches to a file: `main`
prints a file and counts it among the "suspicious files found"
(lines 268-279) or leaves it unreported.  We render the two outcomes by
the strings the report uses: "suspicious" for a printed file, "normal"
for an unreported one.  No other per-file category exists anywhere in
the code. -/
def mainVerdict (e : Entry) : String :=
  if reportedSuspicious e then ("suspicious") else ("normal")

/-! ## The weights of the findings -/

/-- The score increment the code attaches to each kind of finding:
0 for `"empty file"` (line 146 adds no score) and for the entropy error
(line 175), 3 / 1 for the entropy findings (lines 170, 173), 2 for the
image-density finding (line 185), 5 for an embedded DEX/ELF/PE and 3 for
any other embedded signature (lines 193-196), 2 for the extension
mismatch (line 217). -/
def reasonWeight : Reason → Nat
  | Reason.emptyFile => 0
  | Reason.highEntropy _ => 3
  | Reason.elevatedEntropy _ => 1
  | Reason.entropyError => 0
  | Reason.highBpp _ => 2
  | Reason.embedded n _ => if n = ("DEX") ∨ n = ("ELF") ∨ n = ("PE/MZ") then 5 else 3
  | Reason.mismatch _ _ => 2

/-! ## Spec-side definitions (for stating the claims, not from the code) -/

/-- Modelled from the spec: the score-to-classification mapping of §4
step 8 of the spec (claim C1) — `score ≥ 6 → dangerous`,
`3 ≤ score < 6 → suspicious`, else `normal`.  No such mapping exists
anywhere in the code; this definition exists only to state the claim. -/
def specClassificationOfScore (score : Nat) : String :=
  if 6 ≤ score then ("dangerous")
  else if 3 ≤ score then ("suspicious")
  else ("normal")

/-- Modelled from the spec: the ZIP/JAR signature-file markers of §4
step 6 (claim C2) — the byte strings `META-INF/`, `MANIFEST.MF`, `.RSA`,
`.SF`.  The code never searches for them; this definition exists only to
state the claim. -/
def SIG_MARKERS : List (List Nat) :=
  [[77, 69, 84, 65, 45, 73, 78, 70, 47],
   [77, 65, 78, 73, 70, 69, 83, 84, 46, 77, 70],
   [46, 82, 83, 65],
   [46, 83, 70]]

/-- Modelled from the spec: whether a buffer contains any of the
`SIG_MARKERS` (claim C2's hypothesis). -/
def containsMarker (buf : List Nat) : Bool :=
  SIG_MARKERS.any (fun m => (findSub buf m).isSome)

/-! ## Concrete test files used by the counterexamples and witnesses -/

def zipSig : List Nat := [0x50, 0x4B, 0x03, 0x04]
def elfSig : List Nat := [0x7F, 0x45, 0x4C, 0x46]
/-- The bytes of the marker `META-INF/`. -/
def metaInf : List Nat := [77, 69, 84, 65, 45, 73, 78, 70, 47]

/-- 4097 bytes: zeros, then an ELF signature at offset 4089 and a ZIP
signature at offset 4093. -/
def c1content : List Nat := List.replicate 4089 0 ++ (elfSig ++ zipSig)

def c1file : FileInput :=
  { present := true, readable := true, content := c1content, ext := ".dat", dims := none }

/-- 4097 bytes: zeros, then a ZIP signature at offset 4084 followed by
`META-INF/` at offset 4088. -/
def c2content : List Nat := List.replicate 4084 0 ++ (zipSig ++ metaInf)

def c2file : FileInput :=
  { present := true, readable := true, content := c2content, ext := ".dat", dims := none }

/-- 20 bytes: a ZIP signature at offset 4, inside the head window of a
file smaller than `HEADER_READ`. -/
def c3content : List Nat := List.replicate 4 0 ++ (zipSig ++ List.replicate 12 0)

/-- A 4-byte file of zeros named with extension `.so`. -/
def soFile : FileInput :=
  { present := true, readable := true, content := List.replicate 4 0, ext := ".so", dims := none }

/-- A 10-byte file of zeros named with extension `.png`. -/
def pngNamedFile : FileInput :=
  { present := true, readable := true, content := List.replicate 10 0, ext := ".png", dims := none }

/-- An existing, readable, empty file. -/
def emptyFile : FileInput :=
  { present := true, readable := true, content := [], ext := ".png", dims := none }

/-- A file that vanished: `os.path.exists` is false. -/
def vanishedFile : FileInput :=
  { present := false, readable := true, content := [7], ext := ".png", dims := none }

/-- An existing, non-empty file whose `open` raises (permission denied). -/
def unreadableFile : FileInput :=
  { present := true, readable := false, content := [1, 2, 3], ext := ".dat", dims := none }

def goodFile1 : FileInput :=
  { present := true, readable := true, content := [1], ext := ".dat", dims := none }

def goodFile2 : FileInput :=
  { present := true, readable := true, content := [2], ext := ".dat", dims := none }

/-- A 3-byte readable file, used to witness the entropy policy. -/
def smallFile : FileInput :=
  { present := true, readable := true, content := [1, 2, 3], ext := ".dat", dims := none }

/-! ## Helper lemmas -/

set_option maxRecDepth 4000

lemma head_of_isPrefixOf (a : Nat) (as l : List Nat) (h : (a :: as).isPrefixOf l = true) :
    l.head? = some a := by
  cases l with
  | nil => simp [List.isPrefixOf] at h
  | cons x xs =>
      simp [List.isPrefixOf] at h
      simp [h.1]

/-- Two byte signatures with different first bytes cannot both be
prefixes of the same buffer. -/
lemma prefix_clash {a b : Nat} {as : List Nat} (bs : List Nat) {l : List Nat}
    (ha : (a :: as).isPrefixOf l = true) (hne : b ≠ a) :
    (b :: bs).isPrefixOf l = false := by
  cases hb : (b :: bs).isPrefixOf l with
  | false => rfl
  | true =>
      have h1 := head_of_isPrefixOf _ _ _ ha
      have h2 := head_of_isPrefixOf _ _ _ hb
      rw [h1] at h2
      exact absurd (Option.some_inj.mp h2).symm hne

lemma detect_of_png (l : List Nat)
    (h : ([0x89, 0x50, 0x4E, 0x47, 0x0D, 0x0A, 0x1A, 0x0A] : List Nat).isPrefixOf l = true) :
    detect_magic l = some ("PNG") := by
  rw [detect_magic, MAGICS]
  simp only [List.findSome?_cons]
  simp [h]

lemma detect_of_jpeg (l : List Nat) (h : ([0xFF, 0xD8, 0xFF] : List Nat).isPrefixOf l = true) :
    detect_magic l = some ("JPEG") := by
  rw [detect_magic, MAGICS]
  simp only [List.findSome?_cons]
  rw [prefix_clash _ h (by norm_num)]
  simp [h]

lemma detect_of_gif (l : List Nat) (h : ([0x47, 0x49, 0x46, 0x38] : List Nat).isPrefixOf l = true) :
    detect_magic l = some ("GIF") := by
  rw [detect_magic, MAGICS]
  simp only [List.findSome?_cons]
  rw [prefix_clash _ h (by norm_num), prefix_clash _ h (by norm_num)]
  simp [h]

lemma detect_of_riff (l : List Nat) (h : ([0x52, 0x49, 0x46, 0x46] : List Nat).isPrefixOf l = true) :
    detect_magic l = some ("RIFF/WEBP") := by
  rw [detect_magic, MAGICS]
  simp only [List.findSome?_cons]
  rw [prefix_clash _ h (by norm_num), prefix_clash _ h (by norm_num),
    prefix_clash _ h (by norm_num)]
  simp [h]

lemma detect_of_zip (l : List Nat) (h : ([0x50, 0x4B, 0x03, 0x04] : List Nat).isPrefixOf l = true) :
    detect_magic l = some ("ZIP/APK/JAR") := by
  rw [detect_magic, MAGICS]
  simp only [List.findSome?_cons]
  rw [prefix_clash _ h (by norm_num), prefix_clash _ h (by norm_num),
    prefix_clash _ h (by norm_num), prefix_clash _ h (by norm_num)]
  simp [h]

lemma detect_of_dex (l : List Nat)
    (h : ([0x64, 0x65, 0x78, 0x0A, 0x30, 0x33, 0x35] : List Nat).isPrefixOf l = true) :
    detect_magic l = some ("DEX") := by
  rw [detect_magic, MAGICS]
  simp only [List.findSome?_cons]
  rw [prefix_clash _ h (by norm_num), prefix_clash _ h (by norm_num),
    prefix_clash _ h (by norm_num), prefix_clash _ h (by norm_num),
    prefix_clash _ h (by norm_num)]
  simp [h]

lemma detect_of_elf (l : List Nat) (h : ([0x7F, 0x45, 0x4C, 0x46] : List Nat).isPrefixOf l = true) :
    detect_magic l = some ("ELF") := by
  rw [detect_magic, MAGICS]
  simp only [List.findSome?_cons]
  rw [prefix_clash _ h (by norm_num), prefix_clash _ h (by norm_num),
    prefix_clash _ h (by norm_num), prefix_clash _ h (by norm_num),
    prefix_clash _ h (by norm_num), prefix_clash _ h (by norm_num)]
  simp [h]

lemma detect_of_mz (l : List Nat) (h : ([0x4D, 0x5A] : List Nat).isPrefixOf l = true) :
    detect_magic l = some ("PE/MZ") := by
  rw [detect_magic, MAGICS]
  simp only [List.findSome?_cons]
  rw [prefix_clash _ h (by norm_num), prefix_clash _ h (by norm_num),
    prefix_clash _ h (by norm_num), prefix_clash _ h (by norm_num),
    prefix_clash _ h (by norm_num), prefix_clash _ h (by norm_num),
    prefix_clash _ h (by norm_num)]
  simp [h]

/-- A head-scan step keeps the accumulator unchanged whenever a prefix
match would force the matched name to equal the primary magic. -/
lemma headStep_self (head : List Nat) (size : Nat) (pm : String)
    (acc : List (String × Nat)) (p : List Nat × String)
    (hp : p.1.isPrefixOf head = true → p.2 = pm) :
    headStep head size pm acc p = acc := by
  rw [headStep]
  by_cases h1 : p.1.isPrefixOf head = true ∧ 2 < p.1.length
  · rw [if_pos h1]
    have hpm : p.2 = pm := hp h1.1
    by_cases h2 : ¬(p.2 = pm ∧ min size HEADER_READ = p.1.length)
    · rw [if_pos h2, if_neg (by simp [hpm])]
    · rw [if_neg h2]
  · rw [if_neg h1]

/-- The head scan never reports anything when the primary magic is the
one `detect_magic` found on the same head bytes (as `analyze_file`
always arranges, line 188): the eight signature prefixes have pairwise
distinct first bytes, so the signature found at offset 0 — if any — is
exactly the primary magic and is filtered out. -/
lemma head_findings_detect (c : List Nat) :
    head_findings c ((detect_magic (c.take HEADER_READ)).getD ("UNKNOWN")) = [] := by
  rw [head_findings, MAGICS]
  simp only [List.foldl_cons, List.foldl_nil]
  rw [headStep_self _ _ _ _ _ (fun h => by rw [detect_of_mz _ h]; rfl),
    headStep_self _ _ _ _ _ (fun h => by rw [detect_of_elf _ h]; rfl),
    headStep_self _ _ _ _ _ (fun h => by rw [detect_of_dex _ h]; rfl),
    headStep_self _ _ _ _ _ (fun h => by rw [detect_of_zip _ h]; rfl),
    headStep_self _ _ _ _ _ (fun h => by rw [detect_of_riff _ h]; rfl),
    headStep_self _ _ _ _ _ (fun h => by rw [detect_of_gif _ h]; rfl),
    headStep_self _ _ _ _ _ (fun h => by rw [detect_of_jpeg _ h]; rfl),
    headStep_self _ _ _ _ _ (fun h => by rw [detect_of_png _ h]; rfl)]

lemma findSub_cons (b : Nat) (t needle : List Nat) (h : needle.isPrefixOf (b :: t) = false) :
    findSub (b :: t) needle = (findSub t needle).map (· + 1) := by
  rw [findSub]
  simp [h]

lemma prefixOf_cons_false (s0 b : Nat) (st t : List Nat) (h : s0 ≠ b) :
    (s0 :: st).isPrefixOf (b :: t) = false := by
  simp [List.isPrefixOf]
  intro hc
  exact absurd hc h

/-- `findSub` skips a leading all-zero block when the needle starts with
a nonzero byte. -/
lemma findSub_zero_replicate_append (s0 : Nat) (st l : List Nat) (h : s0 ≠ 0) (n : Nat) :
    findSub (List.replicate n 0 ++ l) (s0 :: st) = (findSub l (s0 :: st)).map (· + n) := by
  induction n with
  | zero => simp
  | succ k ih =>
      rw [List.replicate_succ, List.cons_append]
      rw [findSub_cons _ _ _ (prefixOf_cons_false _ _ _ _ h)]
      rw [ih]
      cases findSub l (s0 :: st) with
      | none => simp
      | some m =>
          simp
          omega

/-- Entropy of a constant buffer is zero (in particular of an all-zero
buffer, claim C9). -/
lemma shannon_replicate (n v : Nat) : shannon_entropy_bytes (List.replicate n v) = 0 := by
  cases n with
  | zero => simp [shannon_entropy_bytes]
  | succ k =>
      rw [shannon_entropy_bytes, if_neg (by simp)]
      rw [neg_eq_zero]
      apply Finset.sum_eq_zero
      intro b _
      rcases eq_or_ne b v with rfl | hb
      · rw [List.count_replicate_self]
        rw [List.length_replicate]
        rw [if_pos (Nat.succ_pos k)]
        rw [div_self (by positivity)]
        simp
      · rw [List.count_replicate]
        simp [Ne.symm hb]

lemma entropyValue_replicate (n : Nat) (h : n ≤ 5 * 1024 * 1024) :
    entropyValue (List.replicate n 0) = 0 := by
  rw [entropyValue, sampled_data, if_pos (by simpa using h), shannon_replicate]

lemma entropy_reasons_of_value_zero (c : List Nat) (h : entropyValue c = 0) :
    entropy_reasons c = [] := by
  rw [entropy_reasons, h, if_neg, if_neg]
  · rw [ENTROPY_SUSPICIOUS]
    norm_num
  · rw [ENTROPY_UNMISTAKABLE]
    norm_num

lemma entropy_score_of_value_zero (c : List Nat) (h : entropyValue c = 0) :
    entropy_score c = 0 := by
  rw [entropy_score, h, if_neg, if_neg]
  · rw [ENTROPY_SUSPICIOUS]
    norm_num
  · rw [ENTROPY_UNMISTAKABLE]
    norm_num

lemma analyze_file_of_empty (f : FileInput) (h0 : fileSize f = 0) :
    analyze_file f = Except.ok (emptyEntry f) := by
  rw [analyze_file, if_pos h0]

lemma analyze_file_of_readable (f : FileInput) (h0 : fileSize f ≠ 0) (hr : f.readable = true) :
    analyze_file f = Except.ok (analyze_body f) := by
  rw [analyze_file, if_neg h0, hr]
  rfl

lemma analyze_file_of_unreadable (f : FileInput) (h0 : fileSize f ≠ 0) (hr : f.readable = false) :
    analyze_file f = Except.error ("unreadable") := by
  rw [analyze_file, if_neg h0, hr]
  rfl

/-- Every successful analysis is either the empty-file entry or the full
analysis body. -/
lemma ok_cases (f : FileInput) (e : Entry) (h : analyze_file f = Except.ok e) :
    (fileSize f = 0 ∧ e = emptyEntry f) ∨
      (fileSize f ≠ 0 ∧ f.readable = true ∧ e = analyze_body f) := by
  rw [analyze_file] at h
  by_cases h0 : fileSize f = 0
  · rw [if_pos h0] at h
    exact Or.inl ⟨h0, (Except.ok.injEq _ _ ▸ h).symm⟩
  · rw [if_neg h0] at h
    cases hr : f.readable with
    | true =>
        rw [hr] at h
        simp only [if_true] at h
        exact Or.inr ⟨h0, rfl, (Except.ok.injEq _ _ ▸ h).symm⟩
    | false =>
        rw [hr] at h
        rw [if_neg (by simp)] at h
        exact absurd h (by simp)

/-- The only exception message the model ever produces. -/
lemma error_msg (f : FileInput) (s : String) (h : analyze_file f = Except.error s) :
    s = ("unreadable") := by
  rw [analyze_file] at h
  by_cases h0 : fileSize f = 0
  · rw [if_pos h0] at h
    exact absurd h (by simp)
  · rw [if_neg h0] at h
    cases hr : f.readable with
    | true =>
        rw [hr] at h
        simp only [if_true] at h
        exact absurd h (by simp)
    | false =>
        rw [hr] at h
        rw [if_neg (by simp)] at h
        exact ((Except.error.injEq _ _).mp h).symm

lemma reported_of_reasons (e : Entry) (h : e.reasons ≠ []) : reportedSuspicious e = true := by
  rw [reportedSuspicious]
  have hne : e.reasons.isEmpty = false := by
    cases hr : e.reasons with
    | nil => exact absurd hr h
    | cons a t => rfl
  rw [hne]
  simp

lemma reported_of_score (e : Entry) (h : 0 < e.score) : reportedSuspicious e = true := by
  rw [reportedSuspicious, decide_eq_true h]
  simp

lemma mainVerdict_of_reported (e : Entry) (h : reportedSuspicious e = true) :
    mainVerdict e = ("suspicious") := by
  rw [mainVerdict, if_pos h]

lemma mainVerdict_cases (e : Entry) :
    mainVerdict e = ("suspicious") ∨ mainVerdict e = ("normal") := by
  rw [mainVerdict]
  by_cases h : reportedSuspicious e = true
  · rw [if_pos h]
    exact Or.inl rfl
  · rw [if_neg h]
    exact Or.inr rfl

/-- Projection lemmas for `analyze_body`, stated for a symbolic file so
that using them never forces evaluation of a concrete byte list. -/
lemma analyze_body_embedded (f : FileInput) :
    (analyze_body f).embedded = embedded_findings f := rfl

lemma analyze_body_score (f : FileInput) :
    (analyze_body f).score =
      entropy_score f.content + bpp_score f + embedded_score f + mismatch_score f := rfl

lemma analyze_body_reasons (f : FileInput) :
    (analyze_body f).reasons = entropy_reasons f.content ++ bpp_reasons f ++
      embedded_reasons f ++ mismatch_reasons f := rfl

lemma analyze_body_filesize (f : FileInput) :
    (analyze_body f).filesize = f.content.length := rfl

/-! ## Each stage's score is the summed weight of its reasons -/

lemma entropy_weight_sum (c : List Nat) :
    ((entropy_reasons c).map reasonWeight).sum = entropy_score c := by
  rw [entropy_reasons, entropy_score]
  split_ifs <;> simp [reasonWeight]

lemma bpp_weight_sum (f : FileInput) :
    ((bpp_reasons f).map reasonWeight).sum = bpp_score f := by
  rw [bpp_reasons, bpp_score]
  cases hb : bppValue f with
  | none => simp
  | some q =>
      simp only []
      split_ifs <;> simp [reasonWeight]

lemma emb_weight (l : List (String × Nat)) :
    ((l.map (fun p => Reason.embedded p.1 p.2)).map reasonWeight).sum =
      (l.map (fun p => if p.1 = ("DEX") ∨ p.1 = ("ELF") ∨ p.1 = ("PE/MZ") then 5 else 3)).sum := by
  induction l with
  | nil => rfl
  | cons a t ih =>
      simp only [List.map_cons, List.sum_cons, ih]
      rfl

lemma embedded_weight_sum (f : FileInput) :
    ((embedded_reasons f).map reasonWeight).sum = embedded_score f := by
  rw [embedded_reasons, embedded_score]
  exact emb_weight _

lemma mismatch_weight_sum (f : FileInput) :
    ((mismatch_reasons f).map reasonWeight).sum = mismatch_score f := by
  rw [mismatch_reasons, mismatch_score]
  cases ext_map f.ext with
  | none => simp
  | some expected =>
      simp only []
      split_ifs <;> simp [reasonWeight]

/-- The score accumulated by `analyze_file` is exactly the summed weight
of the reasons it recorded. -/
lemma score_eq_weight_sum (f : FileInput) (e : Entry) (h : analyze_file f = Except.ok e) :
    e.score = (e.reasons.map reasonWeight).sum := by
  rcases ok_cases f e h with ⟨h0, rfl⟩ | ⟨h0, hr, rfl⟩
  · rfl
  · have hs : (analyze_body f).score =
        entropy_score f.content + bpp_score f + embedded_score f + mismatch_score f := rfl
    have hrs : (analyze_body f).reasons =
        entropy_reasons f.content ++ bpp_reasons f ++ embedded_reasons f ++ mismatch_reasons f := rfl
    rw [hs, hrs, List.map_append, List.map_append, List.map_append,
      List.sum_append, List.sum_append, List.sum_append,
      entropy_weight_sum, bpp_weight_sum, embedded_weight_sum, mismatch_weight_sum]

/-! ## Concrete computations on the test files -/

lemma c1len : c1content.length = 4097 := by
  rw [c1content, List.length_append, List.length_replicate]
  rfl

lemma c1tail : tailBuffer c1content = c1content := by
  rw [tailBuffer, c1len]
  norm_num [TAIL_SCAN]

lemma detect_magic_zero_cons (t : List Nat) : detect_magic (0 :: t) = none := by
  rw [detect_magic, MAGICS]
  simp [List.findSome?_cons, List.isPrefixOf]

lemma c1head : c1content.take HEADER_READ =
    0 :: ((List.replicate 4088 0 ++ (elfSig ++ zipSig)).take 4095) := by
  rw [c1content, show (4089 : Nat) = 4088 + 1 from rfl, List.replicate_succ, List.cons_append]
  rfl

lemma magic_c1 : magicOf c1file = ("UNKNOWN") := by
  rw [magicOf, show c1file.content = c1content from rfl, c1head, detect_magic_zero_cons]
  rfl

lemma c1tail_findings : tail_findings c1content = [(("ZIP/APK/JAR"), 4093), (("ELF"), 4089)] := by
  have h1 : findSub c1content [0x89, 0x50, 0x4E, 0x47, 0x0D, 0x0A, 0x1A, 0x0A] = none := by
    rw [c1content, findSub_zero_replicate_append _ _ _ (by norm_num)]
    decide
  have h2 : findSub c1content [0xFF, 0xD8, 0xFF] = none := by
    rw [c1content, findSub_zero_replicate_append _ _ _ (by norm_num)]
    decide
  have h3 : findSub c1content [0x47, 0x49, 0x46, 0x38] = none := by
    rw [c1content, findSub_zero_replicate_append _ _ _ (by norm_num)]
    decide
  have h4 : findSub c1content [0x52, 0x49, 0x46, 0x46] = none := by
    rw [c1content, findSub_zero_replicate_append _ _ _ (by norm_num)]
    decide
  have h5 : findSub c1content [0x50, 0x4B, 0x03, 0x04] = some 4093 := by
    rw [c1content, findSub_zero_replicate_append _ _ _ (by norm_num)]
    decide
  have h6 : findSub c1content [0x64, 0x65, 0x78, 0x0A, 0x30, 0x33, 0x35] = none := by
    rw [c1content, findSub_zero_replicate_append _ _ _ (by norm_num)]
    decide
  have h7 : findSub c1content [0x7F, 0x45, 0x4C, 0x46] = some 4089 := by
    rw [c1content, findSub_zero_replicate_append _ _ _ (by norm_num)]
    decide
  have h8 : findSub c1content [0x4D, 0x5A] = none := by
    rw [c1content, findSub_zero_replicate_append _ _ _ (by norm_num)]
    decide
  rw [tail_findings, MAGICS]
  simp only [List.foldl_cons, List.foldl_nil, tailStep, c1tail, c1len,
    h1, h2, h3, h4, h5, h6, h7, h8]
  norm_num

lemma c1emb : embedded_findings c1file = [(("ZIP/APK/JAR"), 4093), (("ELF"), 4089)] := by
  rw [embedded_findings, show c1file.content = c1content from rfl, magic_c1, scan_for_embedded]
  rw [if_neg (by rw [c1len]; norm_num)]
  have hhead : head_findings c1content ("UNKNOWN") = [] := by
    have h := head_findings_detect c1content
    rw [c1head, detect_magic_zero_cons] at h
    exact h
  rw [hhead, List.nil_append, if_pos (by rw [c1len, HEADER_READ]; norm_num), c1tail_findings]

lemma c2len : c2content.length = 4097 := by
  rw [c2content, List.length_append, List.length_replicate]
  rfl

lemma c2tail : tailBuffer c2content = c2content := by
  rw [tailBuffer, c2len]
  norm_num [TAIL_SCAN]

lemma c2head : c2content.take HEADER_READ =
    0 :: ((List.replicate 4083 0 ++ (zipSig ++ metaInf)).take 4095) := by
  rw [c2content, show (4084 : Nat) = 4083 + 1 from rfl, List.replicate_succ, List.cons_append]
  rfl

lemma magic_c2 : magicOf c2file = ("UNKNOWN") := by
  rw [magicOf, show c2file.content = c2content from rfl, c2head, detect_magic_zero_cons]
  rfl

lemma c2tail_findings : tail_findings c2content = [(("ZIP/APK/JAR"), 4084)] := by
  have h1 : findSub c2content [0x89, 0x50, 0x4E, 0x47, 0x0D, 0x0A, 0x1A, 0x0A] = none := by
    rw [c2content, findSub_zero_replicate_append _ _ _ (by norm_num)]
    decide
  have h2 : findSub c2content [0xFF, 0xD8, 0xFF] = none := by
    rw [c2content, findSub_zero_replicate_append _ _ _ (by norm_num)]
    decide
  have h3 : findSub c2content [0x47, 0x49, 0x46, 0x38] = none := by
    rw [c2content, findSub_zero_replicate_append _ _ _ (by norm_num)]
    decide
  have h4 : findSub c2content [0x52, 0x49, 0x46, 0x46] = none := by
    rw [c2content, findSub_zero_replicate_append _ _ _ (by norm_num)]
    decide
  have h5 : findSub c2content [0x50, 0x4B, 0x03, 0x04] = some 4084 := by
    rw [c2content, findSub_zero_replicate_append _ _ _ (by norm_num)]
    decide
  have h6 : findSub c2content [0x64, 0x65, 0x78, 0x0A, 0x30, 0x33, 0x35] = none := by
    rw [c2content, findSub_zero_replicate_append _ _ _ (by norm_num)]
    decide
  have h7 : findSub c2content [0x7F, 0x45, 0x4C, 0x46] = none := by
    rw [c2content, findSub_zero_replicate_append _ _ _ (by norm_num)]
    decide
  have h8 : findSub c2content [0x4D, 0x5A] = none := by
    rw [c2content, findSub_zero_replicate_append _ _ _ (by norm_num)]
    decide
  rw [tail_findings, MAGICS]
  simp only [List.foldl_cons, List.foldl_nil, tailStep, c2tail, c2len,
    h1, h2, h3, h4, h5, h6, h7, h8]
  norm_num

lemma c2emb : embedded_findings c2file = [(("ZIP/APK/JAR"), 4084)] := by
  rw [embedded_findings, show c2file.content = c2content from rfl, magic_c2, scan_for_embedded]
  rw [if_neg (by rw [c2len]; norm_num)]
  have hhead : head_findings c2content ("UNKNOWN") = [] := by
    have h := head_findings_detect c2content
    rw [c2head, detect_magic_zero_cons] at h
    exact h
  rw [hhead, List.nil_append, if_pos (by rw [c2len, HEADER_READ]; norm_num), c2tail_findings]

lemma c2marker : containsMarker (tailBuffer c2file.content) = true := by
  have hfm : findSub (tailBuffer c2content) ([77, 69, 84, 65, 45, 73, 78, 70, 47]) =
      some 4088 := by
    rw [c2tail, c2content, findSub_zero_replicate_append _ _ _ (by norm_num)]
    decide
  rw [show c2file.content = c2content from rfl, containsMarker, SIG_MARKERS]
  simp only [List.any_cons, hfm]
  simp

lemma bind_ok_eq {α β : Type} (a : α) (k : α → Except String β) :
    (Except.ok a >>= k) = k a := rfl

lemma bind_error_eq {α β : Type} (s : String) (k : α → Except String β) :
    ((Except.error s : Except String α) >>= k) = Except.error s := rfl

/-- One unreadable file anywhere in the batch makes the whole walk end in
the unhandled exception: no later file is analyzed and no result list is
produced. -/
lemma mainLoop_abort (l₁ : List FileInput) (f : FileInput) (l₂ : List FileInput)
    (hp : f.present = true) (hr : f.readable = false) (hc : f.content ≠ []) :
    mainLoop (l₁ ++ f :: l₂) = Except.error ("unreadable") := by
  have hful : fileSize f ≠ 0 := by
    rw [fileSize, hp]
    simpa using hc
  induction l₁ with
  | nil =>
      rw [List.nil_append, mainLoop, List.mapM_cons,
        analyze_file_of_unreadable f hful hr]
      rfl
  | cons a t ih =>
      rw [List.cons_append, mainLoop, List.mapM_cons]
      cases ha : analyze_file a with
      | ok b =>
          rw [mainLoop] at ih
          rw [bind_ok_eq, ih]
          rfl
      | error s =>
          rw [bind_error_eq, error_msg a s ha]

/-- The reasons recorded for `soFile`: no entropy, density or embedded
finding, just the extension/magic mismatch triggered by `.so`. -/
lemma soFile_reasons :
    (analyze_body soFile).reasons = [Reason.mismatch ("UNKNOWN") (".so")] := by
  have hrs : (analyze_body soFile).reasons = entropy_reasons soFile.content ++
      bpp_reasons soFile ++ embedded_reasons soFile ++ mismatch_reasons soFile := rfl
  have hent : entropy_reasons soFile.content = [] := by
    apply entropy_reasons_of_value_zero
    rw [show soFile.content = List.replicate 4 0 from rfl]
    exact entropyValue_replicate 4 (by norm_num)
  have hbpp : bpp_reasons soFile = [] := rfl
  have hembr : embedded_reasons soFile = [] := rfl
  have hmis : mismatch_reasons soFile = [Reason.mismatch ("UNKNOWN") (".so")] := rfl
  rw [hrs, hent, hbpp, hembr, hmis]
  rfl

/-- The reasons recorded for `pngNamedFile`: only the extension/magic
mismatch (a 10-zero-byte file named `.png`). -/
lemma pngNamedFile_reasons :
    (analyze_body pngNamedFile).reasons = [Reason.mismatch ("UNKNOWN") (".png")] := by
  have hrs : (analyze_body pngNamedFile).reasons = entropy_reasons pngNamedFile.content ++
      bpp_reasons pngNamedFile ++ embedded_reasons pngNamedFile ++
      mismatch_reasons pngNamedFile := rfl
  have hent : entropy_reasons pngNamedFile.content = [] := by
    apply entropy_reasons_of_value_zero
    rw [show pngNamedFile.content = List.replicate 10 0 from rfl]
    exact entropyValue_replicate 10 (by norm_num)
  rw [hrs, hent, show bpp_reasons pngNamedFile = [] from rfl,
    show embedded_reasons pngNamedFile = [] from rfl,
    show mismatch_reasons pngNamedFile = [Reason.mismatch ("UNKNOWN") (".png")] from rfl]
  rfl

lemma mismatch_not_mem_entropy (c : List Nat) (m x : String) :
    Reason.mismatch m x ∉ entropy_reasons c := by
  rw [entropy_reasons]
  split_ifs <;> simp

lemma mismatch_not_mem_bpp (f : FileInput) (m x : String) :
    Reason.mismatch m x ∉ bpp_reasons f := by
  rw [bpp_reasons]
  cases bppValue f with
  | none => simp
  | some q =>
      simp only []
      split_ifs <;> simp

lemma mismatch_not_mem_embedded (f : FileInput) (m x : String) :
    Reason.mismatch m x ∉ embedded_reasons f := by
  rw [embedded_reasons]
  simp

lemma mismatch_mem_iff (f : FileInput) (m x : String) :
    (Reason.mismatch m x ∈ mismatch_reasons f) ↔
      (m = magicOf f ∧ x = f.ext ∧
        ∃ expected, ext_map f.ext = some expected ∧ magicOf f ≠ expected) := by
  rw [mismatch_reasons]
  cases he : ext_map f.ext with
  | none => simp
  | some expected =>
      simp only []
      by_cases hne : magicOf f ≠ expected
      · rw [if_pos hne]
        simp only [List.mem_singleton, Reason.mismatch.injEq]
        constructor
        · rintro ⟨h1, h2⟩
          exact ⟨h1, h2, expected, rfl, hne⟩
        · rintro ⟨h1, h2, e', he', hne'⟩
          exact ⟨h1, h2⟩
      · rw [if_neg hne]
        simp only [List.not_mem_nil, false_iff]
        rintro ⟨h1, h2, e', he', hne'⟩
        have hm : magicOf f = expected := not_not.mp hne
        exact hne' (hm.trans (Option.some_inj.mp he'))

/-! # The claims -/

/-- C1 (corrected), counterexample: a 4097-byte file with an embedded ELF
and an embedded ZIP signature scores at least 6, which the claimed
mapping would classify as `dangerous`; the program's only per-file
verdict for it is the report's blanket `suspicious`.  No score-to-
classification mapping exists in the code. -/
theorem C1_counterexample :
    analyze_file c1file = Except.ok (analyze_body c1file) ∧
    6 ≤ (analyze_body c1file).score ∧
    specClassificationOfScore (analyze_body c1file).score = ("dangerous") ∧
    mainVerdict (analyze_body c1file) = ("suspicious") := by
  have hok := analyze_file_of_readable c1file
    (by rw [show fileSize c1file = c1content.length from rfl, c1len]; norm_num) rfl
  have hemb : embedded_score c1file = 8 := by
    rw [embedded_score, c1emb]
    decide
  have h6 : 6 ≤ (analyze_body c1file).score := by
    rw [analyze_body_score, hemb]
    omega
  refine ⟨hok, h6, ?_, ?_⟩
  · rw [specClassificationOfScore, if_pos h6]
  · exact mainVerdict_of_reported _ (reported_of_score _ (by omega))

/-- C1 (corrected), amended claim: `analyze` assigns the severity score
as the sum of the weights of all recorded findings — embedded DEX/ELF/PE
= 5, any other embedded signature (ZIP, but also PNG/JPEG/GIF/RIFF found
in the tail) = 3, high entropy = 3, elevated entropy = 1, extension
mismatch = 2, high bytes-per-pixel = 2 — but derives no classification
from the score: the driver reports a file as `suspicious` exactly when
`score > 0` or `reasons` is non-empty, with no dangerous/normal split. -/
theorem C1_score_weights (f : FileInput) (e : Entry) (h : analyze_file f = Except.ok e) :
    e.score = (e.reasons.map reasonWeight).sum ∧
    (mainVerdict e = ("suspicious") ↔ (0 < e.score ∨ e.reasons ≠ [])) := by
  refine ⟨score_eq_weight_sum f e h, ?_⟩
  constructor
  · intro hv
    by_contra hcon
    push_neg at hcon
    have hs : e.score = 0 := by omega
    have hrs : e.reasons = [] := hcon.2
    rw [mainVerdict, reportedSuspicious, hs, hrs] at hv
    simp at hv
  · intro hor
    rcases hor with hs | hrs
    · exact mainVerdict_of_reported _ (reported_of_score _ hs)
    · exact mainVerdict_of_reported _ (reported_of_reasons _ hrs)

/-- C1 witness: the theorem applied to the concrete `.png`-named file of
zero bytes content. -/
theorem C1_witness :
    analyze_file pngNamedFile = Except.ok (analyze_body pngNamedFile) ∧
    (analyze_body pngNamedFile).score =
      ((analyze_body pngNamedFile).reasons.map reasonWeight).sum := by
  have hok := analyze_file_of_readable pngNamedFile (by decide) rfl
  exact ⟨hok, (C1_score_weights pngNamedFile _ hok).1⟩

/-- C2 (corrected), counterexample: a file with an embedded ZIP finding
at offset 4084 and the literal `META-INF/` in its tail buffer is not
classified as `signature` — the code never looks for the markers and has
no `signature` outcome; the file gets the ordinary score-path verdict. -/
theorem C2_counterexample :
    analyze_file c2file = Except.ok (analyze_body c2file) ∧
    (("ZIP/APK/JAR"), 4084) ∈ (analyze_body c2file).embedded ∧
    containsMarker (tailBuffer c2file.content) = true ∧
    mainVerdict (analyze_body c2file) ≠ ("signature") := by
  have hok := analyze_file_of_readable c2file
    (by rw [show fileSize c2file = c2content.length from rfl, c2len]; norm_num) rfl
  refine ⟨hok, ?_, c2marker, ?_⟩
  · rw [analyze_body_embedded, c2emb]
    simp
  · rcases mainVerdict_cases (analyze_body c2file) with hv | hv <;> rw [hv] <;> decide

/-- C2 (corrected), amended claim: for a file with an embedded ZIP
finding — with or without signature markers in the tail — `analyze`
performs no signature-file check and no early termination: the ZIP
finding contributes its reason and weight like any other finding and the
driver's verdict is the same `suspicious` used for every reported file;
no `signature` classification exists anywhere in the program. -/
theorem C2_zip_marker_verdict (f : FileInput) (e : Entry) (off : Nat)
    (h : analyze_file f = Except.ok e)
    (hz : (("ZIP/APK/JAR"), off) ∈ e.embedded)
    (hm : containsMarker (tailBuffer f.content) = true) :
    mainVerdict e = ("suspicious") ∧ mainVerdict e ≠ ("signature") := by
  have hsusp : mainVerdict e = ("suspicious") := by
    rcases ok_cases f e h with ⟨h0, rfl⟩ | ⟨h0, hr, rfl⟩
    · exact absurd hz (by simp [emptyEntry])
    · apply mainVerdict_of_reported
      apply reported_of_reasons
      intro hnil
      rw [analyze_body_reasons] at hnil
      simp only [List.append_eq_nil] at hnil
      have hfnil : embedded_findings f = [] :=
        List.map_eq_nil_iff.mp hnil.1.2
      rw [analyze_body_embedded, hfnil] at hz
      simp at hz
  exact ⟨hsusp, by rw [hsusp]; decide⟩

/-- C2 witness: the theorem applied to the concrete marker-bearing file. -/
theorem C2_witness :
    containsMarker (tailBuffer c2file.content) = true ∧
    mainVerdict (analyze_body c2file) = ("suspicious") := by
  have hok := analyze_file_of_readable c2file
    (by rw [show fileSize c2file = c2content.length from rfl, c2len]; norm_num) rfl
  have hmem : (("ZIP/APK/JAR"), 4084) ∈ (analyze_body c2file).embedded := by
    rw [analyze_body_embedded, c2emb]
    simp
  exact ⟨c2marker, (C2_zip_marker_verdict c2file _ 4084 hok hmem c2marker).1⟩

/-- C3 (corrected), counterexample: a 20-byte file with a ZIP signature
at offset 4 — inside the head buffer, away from the leading magic —
produces no embedded finding at all: the head scan only ever tests
offset 0 and the tail scan does not run for files of at most 4096
bytes. -/
theorem C3_counterexample :
    zipSig.isPrefixOf (c3content.drop 4) = true ∧
    (4 : Nat) ≠ 0 ∧
    c3content.length ≤ HEADER_READ ∧
    scan_for_embedded c3content
      ((detect_magic (c3content.take HEADER_READ)).getD ("UNKNOWN")) = [] ∧
    (("ZIP/APK/JAR"), 4) ∉ scan_for_embedded c3content
      ((detect_magic (c3content.take HEADER_READ)).getD ("UNKNOWN")) := by
  refine ⟨by decide, by decide, by decide, by decide, by decide⟩

/-- C3 (corrected), amended claim: as invoked by `analyze` (primary magic
= `detect_magic` of the same head bytes), the head scan contributes
nothing — a signature prefix at offset 0 is always the detected primary
magic itself, since the eight signatures have pairwise distinct first
bytes — so the embedded list is exactly the tail scan: for files larger
than 4096 bytes, the first occurrence of each signature type in the last
`min(1 MiB, size)` bytes, at its absolute file offset, excluding offset
0; files of at most 4096 bytes get no embedded findings, and occurrences
inside the head window beyond offset 0 are never reported. -/
theorem C3_scan_characterization (c : List Nat) :
    scan_for_embedded c ((detect_magic (c.take HEADER_READ)).getD ("UNKNOWN")) =
      if HEADER_READ < c.length then tail_findings c else [] := by
  by_cases h0 : c.length = 0
  · rw [scan_for_embedded, if_pos h0, if_neg (by rw [h0]; norm_num [HEADER_READ])]
  · rw [scan_for_embedded, if_neg h0, head_findings_detect, List.nil_append]

/-- C4 (corrected), counterexample: an existing but unreadable file does
not yield any per-file result (no entry, no `dangerous` classification,
no reason noting the error) — `analyze_file` raises, and the raised
exception aborts the whole batch walk, dropping the file after it. -/
theorem C4_counterexample :
    analyze_file unreadableFile = Except.error ("unreadable") ∧
    mainLoop [goodFile1, unreadableFile, goodFile2] = Except.error ("unreadable") := by
  exact ⟨analyze_file_of_unreadable _ (by decide) rfl, rfl⟩

/-- C4 (corrected), amended claim: a vanished file (`os.path.exists`
false) is reported as the ordinary empty-file result — single reason
"empty file", score 0, nothing noting an I/O error — while an existing
but unreadable file raises an unhandled exception that aborts the entire
batch walk no matter where in the walk it occurs. -/
theorem C4_io_failure :
    (∀ f : FileInput, f.present = false → analyze_file f = Except.ok (emptyEntry f)) ∧
    (∀ (l₁ : List FileInput) (f : FileInput) (l₂ : List FileInput),
      f.present = true → f.readable = false → f.content ≠ [] →
      mainLoop (l₁ ++ f :: l₂) = Except.error ("unreadable")) := by
  constructor
  · intro f hp
    apply analyze_file_of_empty
    rw [fileSize, hp]
    rfl
  · intro l₁ f l₂ hp hr hc
    exact mainLoop_abort l₁ f l₂ hp hr hc

/-- C4 witness: the theorem applied to a concrete vanished file and a
concrete three-file batch with an unreadable file in the middle. -/
theorem C4_witness :
    analyze_file vanishedFile = Except.ok (emptyEntry vanishedFile) ∧
    mainLoop [goodFile1, unreadableFile, goodFile2] = Except.error ("unreadable") := by
  exact ⟨C4_io_failure.1 vanishedFile rfl,
    C4_io_failure.2 [goodFile1] unreadableFile [goodFile2] rfl rfl (by decide)⟩

/-- C5 (corrected), counterexample: the empty file's entry does carry the
single reason "empty file" and score 0, but the driver prints it and
counts it among the "suspicious files found" — its verdict is not
`normal`, because the report flags any file with a non-empty reasons
list. -/
theorem C5_counterexample :
    analyze_file emptyFile = Except.ok (emptyEntry emptyFile) ∧
    (emptyEntry emptyFile).reasons = [Reason.emptyFile] ∧
    (emptyEntry emptyFile).score = 0 ∧
    mainVerdict (emptyEntry emptyFile) ≠ ("normal") := by
  refine ⟨analyze_file_of_empty _ rfl, rfl, rfl, ?_⟩
  have hv : mainVerdict (emptyEntry emptyFile) = ("suspicious") :=
    mainVerdict_of_reported _ (reported_of_reasons _ (by simp [emptyEntry]))
  rw [hv]
  decide

/-- C5 (corrected), amended claim: for every file with `size_bytes == 0`,
`analyze` returns immediately with exactly the one reason "empty file",
score 0 and no other findings (no magic, entropy, dimension, bpp or
embedded data); because the reasons list is non-empty, the driver then
reports the file as `suspicious`, not `normal`. -/
theorem C5_empty_file (f : FileInput) (h0 : fileSize f = 0) :
    analyze_file f = Except.ok (emptyEntry f) ∧
    (emptyEntry f).reasons = [Reason.emptyFile] ∧
    (emptyEntry f).score = 0 ∧
    (emptyEntry f).magic = none ∧
    (emptyEntry f).entropy = none ∧
    (emptyEntry f).w = none ∧
    (emptyEntry f).bpp = none ∧
    (emptyEntry f).embedded = [] ∧
    mainVerdict (emptyEntry f) = ("suspicious") := by
  refine ⟨analyze_file_of_empty f h0, rfl, rfl, rfl, rfl, rfl, rfl, rfl, ?_⟩
  exact mainVerdict_of_reported _ (reported_of_reasons _ (by simp [emptyEntry]))

/-- C5 witness: the theorem applied to a concrete empty file. -/
theorem C5_witness :
    analyze_file emptyFile = Except.ok (emptyEntry emptyFile) ∧
    mainVerdict (emptyEntry emptyFile) = ("suspicious") := by
  have h := C5_empty_file emptyFile rfl
  exact ⟨h.1, h.2.2.2.2.2.2.2.2⟩

/-- C6 (confirmed): the reported entropy is the Shannon entropy of the
whole byte content for files of at most 5 MiB, and of the concatenation
of three `SAMPLE_CHUNK`-sized chunks from the head, the middle
(offset `size / 2`) and the tail for larger files. -/
theorem C6_entropy_policy (f : FileInput) (e : Entry) (h : analyze_file f = Except.ok e)
    (h0 : e.filesize ≠ 0) :
    e.entropy = some (shannon_entropy_bytes (sampled_data f.content)) ∧
    (f.content.length ≤ 5 * 1024 * 1024 → sampled_data f.content = f.content) ∧
    (5 * 1024 * 1024 < f.content.length →
      sampled_data f.content =
        f.content.take SAMPLE_CHUNK ++ (f.content.drop (f.content.length / 2)).take SAMPLE_CHUNK
          ++ (f.content.drop (f.content.length - SAMPLE_CHUNK)).take SAMPLE_CHUNK ∧
      (sampled_data f.content).length = 3 * SAMPLE_CHUNK) := by
  rcases ok_cases f e h with ⟨hz, rfl⟩ | ⟨hz, hr, rfl⟩
  · exact absurd rfl h0
  · refine ⟨rfl, ?_, ?_⟩
    · intro hle
      rw [sampled_data, if_pos hle]
    · intro hgt
      have hne : ¬ f.content.length ≤ 5 * 1024 * 1024 := by omega
      refine ⟨by rw [sampled_data, if_neg hne], ?_⟩
      rw [sampled_data, if_neg hne]
      rw [List.length_append, List.length_append, List.length_take, List.length_take,
        List.length_take, List.length_drop, List.length_drop]
      simp only [SAMPLE_CHUNK]
      omega

/-- C6 witness: the theorem applied to a concrete 3-byte file, whose
entropy is computed over the entire content. -/
theorem C6_witness :
    analyze_file smallFile = Except.ok (analyze_body smallFile) ∧
    (analyze_body smallFile).entropy =
      some (shannon_entropy_bytes (sampled_data smallFile.content)) ∧
    sampled_data smallFile.content = smallFile.content := by
  have hok := analyze_file_of_readable smallFile (by decide) rfl
  have h0 : (analyze_body smallFile).filesize ≠ 0 := by
    rw [show (analyze_body smallFile).filesize = smallFile.content.length from rfl]
    decide
  obtain ⟨h1, h2, _⟩ := C6_entropy_policy smallFile _ hok h0
  exact ⟨hok, h1, h2 (by norm_num [show smallFile.content = [1, 2, 3] from rfl])⟩

/-- C7 (corrected), counterexample: a 4-byte all-zero file named `.so`
receives a mismatch finding even though `.so` is outside the claimed
five-extension map — the code's map also contains `.so → ELF`. -/
theorem C7_counterexample :
    Reason.mismatch ("UNKNOWN") (".so") ∈ (analyze_body soFile).reasons ∧
    soFile.ext = (".so") ∧
    (".so") ∉ [(".png"), (".jpg"), (".jpeg"), (".gif"), (".webp")] := by
  refine ⟨?_, rfl, by decide⟩
  rw [soFile_reasons]
  simp

/-- C7 (corrected), amended claim: a mismatch finding is recorded exactly
when the file's extension is one of `.png`, `.jpg`, `.jpeg`, `.gif`,
`.webp` or `.so` and the detected magic differs from the mapped expected
magic (PNG, JPEG, JPEG, GIF, RIFF/WEBP, ELF respectively); every other
extension gets no mismatch finding. -/
theorem C7_mismatch_characterization (f : FileInput) (e : Entry)
    (h : analyze_file f = Except.ok e) (h0 : e.filesize ≠ 0) (m x : String) :
    Reason.mismatch m x ∈ e.reasons ↔
      (m = magicOf f ∧ x = f.ext ∧
        ∃ expected, ext_map f.ext = some expected ∧ magicOf f ≠ expected) := by
  rcases ok_cases f e h with ⟨hz, rfl⟩ | ⟨hz, hr, rfl⟩
  · exact absurd rfl h0
  · have hrs : (analyze_body f).reasons = entropy_reasons f.content ++ bpp_reasons f ++
        embedded_reasons f ++ mismatch_reasons f := rfl
    rw [hrs]
    simp only [List.mem_append,
      iff_false_intro (mismatch_not_mem_entropy f.content m x),
      iff_false_intro (mismatch_not_mem_bpp f m x),
      iff_false_intro (mismatch_not_mem_embedded f m x), false_or]
    exact mismatch_mem_iff f m x

/-- C7 witness: the amended theorem applied to the concrete `.so` file. -/
theorem C7_witness :
    Reason.mismatch ("UNKNOWN") (".so") ∈ (analyze_body soFile).reasons := by
  have hok := analyze_file_of_readable soFile (by decide) rfl
  have h0 : (analyze_body soFile).filesize ≠ 0 := by
    rw [show (analyze_body soFile).filesize = soFile.content.length from rfl]
    decide
  exact (C7_mismatch_characterization soFile _ hok h0 ("UNKNOWN") (".so")).mpr
    ⟨rfl, rfl, ("ELF"), rfl, by decide⟩

/-- C8 (confirmed): whenever the program's verdict for an analyzed file
is not `normal` (that is, the driver reports it), at least one
human-readable reason has been recorded: every score increment is
accompanied by a reason, so `score > 0` forces a non-empty reasons
list. -/
theorem C8_reasons_nonempty (f : FileInput) (e : Entry) (h : analyze_file f = Except.ok e)
    (hv : mainVerdict e ≠ ("normal")) : e.reasons ≠ [] := by
  intro hnil
  have hscore : e.score = 0 := by
    rw [score_eq_weight_sum f e h, hnil]
    rfl
  have hrep : reportedSuspicious e = false := by
    rw [reportedSuspicious, hscore, hnil]
    rfl
  rw [mainVerdict, hrep] at hv
  simp at hv

/-- C8 witness: the theorem applied to the `.png`-named mismatch file. -/
theorem C8_witness :
    mainVerdict (analyze_body pngNamedFile) ≠ ("normal") ∧
    (analyze_body pngNamedFile).reasons ≠ [] := by
  have hok := analyze_file_of_readable pngNamedFile (by decide) rfl
  have hv : mainVerdict (analyze_body pngNamedFile) = ("suspicious") :=
    mainVerdict_of_reported _ (reported_of_reasons _ (by rw [pngNamedFile_reasons]; simp))
  have hv' : mainVerdict (analyze_body pngNamedFile) ≠ ("normal") := by
    rw [hv]
    decide
  exact ⟨hv', C8_reasons_nonempty pngNamedFile _ hok hv'⟩

/-- C9 (confirmed): the Shannon entropy of any non-empty all-zero buffer
is exactly 0. -/
theorem C9_zero_entropy (data : List Nat) (hne : data ≠ []) (hz : ∀ b ∈ data, b = 0) :
    shannon_entropy_bytes data = 0 := by
  have hrep : data = List.replicate data.length 0 := List.eq_replicate_iff.mpr ⟨rfl, hz⟩
  rw [hrep, shannon_replicate]

/-- C9 witness: the theorem applied to the concrete buffer `[0, 0, 0]`. -/
theorem C9_witness : shannon_entropy_bytes [0, 0, 0] = 0 :=
  C9_zero_entropy [0, 0, 0] (by decide) (by decide)

/-- C10 (confirmed): `bytes_per_pixel` returns `none` exactly when a
dimension is missing or zero, and otherwise divides by the (nonzero)
pixel count — a division by zero is impossible. -/
theorem C10_bpp_total (size : Nat) (w h : Option Nat) :
    (bytes_per_pixel size w h = none ↔
      (w = none ∨ h = none ∨ w = some 0 ∨ h = some 0)) ∧
    (∀ a b : Nat, w = some a → h = some b → a ≠ 0 → b ≠ 0 →
      bytes_per_pixel size w h = some ((size : ℚ) / ((a : ℚ) * (b : ℚ))) ∧
        ((a : ℚ) * (b : ℚ)) ≠ 0) := by
  constructor
  · cases w with
    | none => simp [bytes_per_pixel]
    | some a =>
        cases h with
        | none => simp [bytes_per_pixel]
        | some b =>
            rw [bytes_per_pixel]
            by_cases hz : a = 0 ∨ b = 0
            · rw [if_pos hz]
              simp only [true_iff]
              rcases hz with rfl | rfl <;> simp
            · rw [if_neg hz]
              push_neg at hz
              simp [hz.1, hz.2]
  · intro a b hw hh ha hb
    subst hw
    subst hh
    rw [bytes_per_pixel, if_neg (by tauto)]
    refine ⟨rfl, ?_⟩
    exact mul_ne_zero (by exact_mod_cast ha) (by exact_mod_cast hb)

/-- C10 witness: the theorem applied to a 200-byte file reported as a
10-by-2-pixel image. -/
theorem C10_witness :
    bytes_per_pixel 200 (some 10) (some 2) =
      some ((200 : ℚ) / ((10 : ℚ) * (2 : ℚ))) ∧ ((10 : ℚ) * (2 : ℚ)) ≠ 0 :=
  (C10_bpp_total 200 (some 10) (some 2)).2 10 2 rfl rfl (by norm_num) (by norm_num)

end Steg
